import Mathlib

/-!
Verification of the ContentFlow backend job pipeline.

The development shallowly embeds the parts of the repository that the
claims are about:

* `models.py` — the `ProcessingStatusEnum` enum and the `Content` and
  `ProcessingJob` ORM rows (only the columns the route handlers touch),
  plus the cascade relationship `Content.processing_jobs`.
* `routes.py` — `generate_content` (the POST /v1/generate handler),
  `process_content_task` (the background pipeline), `delete_content`,
  `export_content` and `_content_to_markdown`.
* `main.py` — the in-memory WebSocket connection registry
  (`active_connections`), the register/deregister behaviour of
  `websocket_endpoint`, and `broadcast_update`.

The database is modelled as an explicit store of rows; each
`await db.commit()` in `process_content_task` is recorded as a snapshot of
the job row, so temporal claims about the sequence of committed states can
be stated.  External effects of the pipeline are made observable in the
run result: `msgs` collects every `broadcast_update` call the task makes
(there are none in the source), and `calls` records each invocation of the
external orchestrator.  The orchestrator itself (`AIOrchestrator`, not in
this repository) is a parameter whose two capabilities may fail, embedding
a raised exception as `Except.error`.
-/

namespace ContentFlow

/-- Status of a processing job (models.py, `ProcessingStatusEnum`,
lines 25-31). -/
inductive ProcessingStatusEnum where
  | PENDING
  | PROCESSING
  | COMPLETED
  | FAILED
  | CANCELLED
deriving DecidableEq, Repr

/-- A status from which the spec allows no further change: COMPLETED,
FAILED or CANCELLED. -/
def isTerminal : ProcessingStatusEnum → Bool
  | .COMPLETED => true
  | .FAILED => true
  | .CANCELLED => true
  | _ => false

/-- The `source_metadata` JSON object built by `generate_content`
(routes.py lines 83-87): tone, target_audience, include_hashtags. -/
structure SourceMetadata where
  tone : Option String
  target_audience : Option String
  include_hashtags : Bool
deriving DecidableEq, Repr

/-- A `contents` row (models.py, class `Content`): source information,
extracted text fields and the generated-output mapping.  Column defaults
are the SQLAlchemy defaults (`None` for nullable columns, `[]`/`{}` for
the JSON columns).  `generated_content` is the mapping content_type →
generated output, modelled as an association list. -/
structure Content where
  id : Nat
  user_id : String
  source_type : String
  source_url : String
  source_title : Option String := none
  source_metadata : SourceMetadata
  raw_text : Option String := none
  cleaned_text : Option String := none
  key_points : List String := []
  summary : Option String := none
  generated_content : List (String × String) := []
  processing_time_ms : Option Nat := none
deriving DecidableEq, Repr

/-- A `processing_jobs` row (models.py, class `ProcessingJob`).  Times are
abstract ticks (`Nat`).  `progress_percent` defaults to 0 and `status` to
PENDING per the column defaults (models.py lines 122-123). -/
structure ProcessingJob where
  id : Nat
  content_id : Nat
  status : ProcessingStatusEnum := .PENDING
  progress_percent : Nat := 0
  current_step : Option String := none
  output_content_types : List String := []
  error_message : Option String := none
  error_code : Option String := none
  started_at : Option Nat := none
  completed_at : Option Nat := none
  session_id : Option String := none
deriving DecidableEq, Repr

/-- The database state visible to the route handlers: the `contents` and
`processing_jobs` tables. -/
structure Store where
  contents : List Content
  jobs : List ProcessingJob
deriving DecidableEq, Repr

/-- `await db.get(ProcessingJob, job_id)` — lookup by primary key. -/
def findJob (s : Store) (jid : Nat) : Option ProcessingJob :=
  s.jobs.find? (fun k => k.id == jid)

/-- `await db.get(Content, content_id)` — lookup by primary key. -/
def findContent (s : Store) (cid : Nat) : Option Content :=
  s.contents.find? (fun c => c.id == cid)

/-- Committing a mutated ORM job object: the row with the same primary key
is replaced. -/
def updateJob (s : Store) (j : ProcessingJob) : Store :=
  ⟨s.contents, s.jobs.map (fun k => if k.id == j.id then j else k)⟩

/-- Committing mutations made through `job.content`: the content row with
the given primary key is replaced by its image under `f`. -/
def mapContent (s : Store) (cid : Nat) (f : Content → Content) : Store :=
  ⟨s.contents.map (fun c => if c.id == cid then f c else c), s.jobs⟩

/-- The validated body of POST /v1/generate (schemas.py,
`ContentGenerationRequest`), with the pydantic field defaults. -/
structure ContentGenerationRequest where
  source_url : String
  source_type : String
  content_types : List String := ["linkedin_carousel", "twitter_thread"]
  tone : Option String := some "professional"
  target_audience : Option String := none
  include_hashtags : Bool := true
  include_emojis : Bool := false
  language : String := "en"
  custom_instructions : Option String := none
deriving DecidableEq, Repr

/-- The `validate_source_url` pydantic validator (schemas.py lines 75-80):
the URL must start with http:// or https://.  The starts-with test is
expressed on the character sequence so that it is computable by the
kernel. -/
def validate_source_url (v : String) : Bool :=
  (v.data.take 7 == "http://".data) || (v.data.take 8 == "https://".data)

/-- The body of POST /v1/contents/{id}/export (schemas.py,
`ContentExportRequest`, lines 83-88). -/
structure ContentExportRequest where
  content_id : Nat
  format : String := "json"
  include_metadata : Bool := true
deriving DecidableEq, Repr

/-- Schema-level validation of `ContentExportRequest.format`: the field is
declared `format: str` with only a description and no validator
(schemas.py lines 83-88), so every string is accepted at validation
time. -/
def export_format_schema_accepts (format : String) : Bool := true

/-- The dictionary returned by `orchestrator.extract_content`; the
pipeline reads the keys "text", "summary" and "key_points" with
`dict.get`, so each may be absent. -/
structure ContentData where
  text : Option String := none
  summary : Option String := none
  key_points : Option (List String) := none
deriving DecidableEq, Repr

/-- The mapping content_type → generated output returned by
`orchestrator.generate_content`. -/
abbrev Generated := List (String × String)

/-- The external `AIOrchestrator` (not part of this repository): an
extractor capability taking (source_url, source_type) and a generator
capability taking (extracted content, content_types, tone,
target_audience, include_hashtags).  A raised exception is embedded as
`Except.error` carrying the exception text. -/
structure Orchestrator where
  extract : String → String → Except String ContentData
  generate : ContentData → List String → Option String → Option String →
      Bool → Except String Generated

/-- A record of one external orchestrator invocation made by the
pipeline. -/
inductive ExtCall where
  | extractCall
  | generateCall
deriving DecidableEq, Repr

/-- A WebSocket message of the shape {type, data} documented in
`websocket_endpoint` (main.py lines 166-170). -/
structure WsMessage where
  type : String
  data : String
deriving DecidableEq, Repr

/-- The observable outcome of one run of `process_content_task`: the
database after the run, the snapshot of the job row at each
`await db.commit()`, the `broadcast_update` calls performed, and the
orchestrator invocations performed.  The run always returns normally
(the body is wrapped in try/except), which the total return type
embeds. -/
structure RunResult where
  store : Store
  commits : List ProcessingJob
  msgs : List (String × WsMessage)
  calls : List ExtCall
deriving Repr

/-- The background pipeline `process_content_task` (routes.py lines
129-180).  `t0` is `datetime.utcnow()` at the start of processing
(`started_at`), `t1` the reading used for `processing_time_ms`, and `t2`
the reading stored in `completed_at`.  Control flow follows the source:
missing job → early return; then status→PROCESSING commit; step
"Extracting content...", progress 20, commit; extractor call; step
"Generating content...", progress 50, commit; generator call; on success
the content fields and the COMPLETED job state are written and committed
together; any orchestrator exception is caught and the job is committed
FAILED with error_code "PROCESSING_ERROR".  No `broadcast_update` call
occurs anywhere in the source body, so `msgs` is `[]` on every path. -/
def process_content_task (s : Store) (job_id : Nat) (session_id : String)
    (req : ContentGenerationRequest) (orch : Orchestrator)
    (t0 t1 t2 : Nat) : RunResult :=
  match findJob s job_id with
  | none => ⟨s, [], [], []⟩
  | some job0 =>
    let job1 := { job0 with status := .PROCESSING, started_at := some t0 }
    let s1 := updateJob s job1
    let job2 := { job1 with current_step := some "Extracting content...",
                            progress_percent := 20 }
    let s2 := updateJob s1 job2
    match orch.extract req.source_url req.source_type with
    | .error e =>
        let jf := { job2 with status := .FAILED, error_message := some e,
                              error_code := some "PROCESSING_ERROR",
                              completed_at := some t2 }
        ⟨updateJob s2 jf, [job1, job2, jf], [], [.extractCall]⟩
    | .ok content_data =>
      let job3 := { job2 with current_step := some "Generating content...",
                              progress_percent := 50 }
      let s3 := updateJob s2 job3
      match orch.generate content_data req.content_types req.tone
          req.target_audience req.include_hashtags with
      | .error e =>
          let jf := { job3 with status := .FAILED, error_message := some e,
                                error_code := some "PROCESSING_ERROR",
                                completed_at := some t2 }
          ⟨updateJob s3 jf, [job1, job2, job3, jf], [],
            [.extractCall, .generateCall]⟩
      | .ok generated =>
          let s4 := mapContent s3 job3.content_id (fun c =>
            { c with raw_text := some ((content_data.text).getD ""),
                     summary := content_data.summary,
                     key_points := (content_data.key_points).getD [],
                     generated_content := generated,
                     processing_time_ms := some ((t1 - t0) * 1000) })
          let jc := { job3 with status := .COMPLETED, progress_percent := 100,
                                completed_at := some t2,
                                current_step := some "Complete!" }
          ⟨updateJob s4 jc, [job1, job2, job3, jc], [],
            [.extractCall, .generateCall]⟩

/-- The response body returned by `generate_content` (routes.py lines
113-119). -/
structure GenerateResponse where
  job_id : Nat
  session_id : String
  status : String
  message : String
  ws_url : String
deriving DecidableEq, Repr

/-- What the POST /v1/generate handler answers: the 202 body on success,
or the HTTP 500 its `except Exception` branch raises, carrying `str(e)`
as detail. -/
inductive SubmitOutcome where
  | accepted (response : GenerateResponse)
  | internalError (detail : String)
deriving DecidableEq, Repr

/-- The outcome of the POST /v1/generate handler: the database after the
handler, the background tasks queued (one `(job_id, session_id)` pair per
`background_tasks.add_task` call), and the answer. -/
structure SubmitResult where
  store : Store
  scheduled : List (Nat × String)
  outcome : SubmitOutcome
deriving DecidableEq, Repr

/-- Committing an insert into the contents table: the database enforces
the column constraints, and `raw_text` is declared
`Column(Text, nullable=False)` with no default (models.py line 72), so a
commit whose content row carries NULL `raw_text` raises IntegrityError,
embedded as `Except.error`. -/
def insertContent (s : Store) (c : Content) : Except String Store :=
  if c.raw_text = none then
    .error "IntegrityError: null value in column raw_text violates not-null constraint"
  else .ok ⟨s.contents ++ [c], s.jobs⟩

/-- The POST /v1/generate handler `generate_content` (routes.py lines
55-126).  `cid` and `jid` stand for the fresh `uuid4` primary keys the
insert would assign, and `sid` for the fresh `str(uuid4())` session id.
The handler builds a Content carrying only source metadata — `raw_text`
is never assigned although the column is NOT NULL — and a PENDING job at
progress 0, then commits both.  When the commit succeeds the job row is
stored, exactly one background execution is queued and the identifiers
are returned; when the commit raises (as it does here, IntegrityError on
the NULL `raw_text`), the `except Exception` branch answers HTTP 500
with `str(e)`, the transaction persists no rows, and
`background_tasks.add_task`, which only follows the commit, never runs. -/
def generate_content (s : Store) (req : ContentGenerationRequest)
    (cid jid : Nat) (sid : String) : SubmitResult :=
  let content : Content :=
    { id := cid, user_id := "user_demo",
      source_type := req.source_type, source_url := req.source_url,
      source_metadata :=
        { tone := req.tone, target_audience := req.target_audience,
          include_hashtags := req.include_hashtags } }
  let job : ProcessingJob :=
    { id := jid, content_id := cid, status := .PENDING,
      session_id := some sid,
      output_content_types := req.content_types }
  match insertContent s content with
  | .error e => ⟨s, [], .internalError e⟩
  | .ok s2 =>
      ⟨⟨s2.contents, s2.jobs ++ [job]⟩, [(jid, sid)],
        .accepted
          { job_id := jid, session_id := sid, status := "queued",
            message :=
              "Processing started. Connect to WebSocket for updates.",
            ws_url := "/ws/process/" ++ sid }⟩

/-- The outcome of DELETE /v1/contents/{id}: the database after the
handler and the HTTP status it answers with (204 on success, 404 when the
content does not exist). -/
structure DeleteResult where
  store : Store
  http_status : Nat
deriving DecidableEq, Repr

/-- The DELETE /v1/contents/{id} handler `delete_content` (routes.py).
A missing content answers 404 and changes nothing; otherwise the content
row is deleted and, through the relationship
`processing_jobs = relationship(..., cascade="all, delete-orphan")`
(models.py line 97), every job row referencing it is deleted too. -/
def delete_content (s : Store) (content_id : Nat) : DeleteResult :=
  match findContent s content_id with
  | none => ⟨s, 404⟩
  | some _ =>
      ⟨⟨s.contents.filter (fun c => c.id != content_id),
        s.jobs.filter (fun j => j.content_id != content_id)⟩, 204⟩

/-- `_content_to_markdown` (routes.py): title line (a falsy — missing or
empty — `source_title` renders as "Untitled"), source line, then optional
Summary and Key Points sections. -/
def content_to_markdown (c : Content) : String :=
  let title := match c.source_title with
    | some t => if t = "" then "Untitled" else t
    | none => "Untitled"
  let ls := ["# " ++ title, "", "**Source:** " ++ c.source_url, ""]
  let ls := ls ++ (match c.summary with
    | some su => if su = "" then [] else ["## Summary", su, ""]
    | none => [])
  let ls := ls ++ (if c.key_points.isEmpty then []
    else ["## Key Points"] ++ c.key_points.map (fun p => "- " ++ p) ++ [""])
  String.intercalate "\n" ls

/-- Model of `ContentResponse.from_orm(content).dict()` used by the json
export branch: a rendering of the row's serialisable fields. -/
def contentToJson (c : Content) : String :=
  String.intercalate "|"
    ([c.user_id, c.source_type, c.source_url,
      (c.summary).getD "", String.intercalate ";" c.key_points] ++
      c.generated_content.map (fun kv => kv.1 ++ "=" ++ kv.2))

/-- The outcome of POST /v1/contents/{id}/export: the success body, the
404 branch for a missing content, or the generic 500 produced when the
handler's catch-all converts the `ValueError` raised for an unsupported
format. -/
inductive ExportOutcome where
  | ok (format : String) (data : String)
  | notFound
  | internalError (detail : String)
deriving DecidableEq, Repr

/-- The POST /v1/contents/{id}/export handler `export_content`
(routes.py).  Missing content → 404.  Format "json" or "markdown" →
success.  Any other format raises `ValueError(f"Unsupported format: …")`,
which the handler's `except Exception` converts into an HTTP 500; the
handler performs no write, so the store is returned unchanged on every
path. -/
def export_content (s : Store) (cid : Nat) (req : ContentExportRequest) :
    ExportOutcome × Store :=
  match findContent s cid with
  | none => (.notFound, s)
  | some c =>
      if req.format = "json" then (.ok "json" (contentToJson c), s)
      else if req.format = "markdown" then
        (.ok "markdown" (content_to_markdown c), s)
      else (.internalError ("Unsupported format: " ++ req.format), s)

/-- The in-memory WebSocket registry `active_connections` (main.py line
157): a dict from session id to socket, modelled as an association list
whose insert removes any previous binding (dict assignment overwrites).
Sockets are identified by `Nat`. -/
abbrev Registry := List (String × Nat)

/-- Dict lookup `active_connections[session_id]` /
`session_id in active_connections`. -/
def lookupConn (r : Registry) (sid : String) : Option Nat :=
  (r.find? (fun p => p.1 == sid)).map (fun p => p.2)

/-- `active_connections[session_id] = websocket` on accept
(main.py line 173): last writer wins. -/
def websocket_register (r : Registry) (sid : String) (ws : Nat) : Registry :=
  (sid, ws) :: r.filter (fun p => p.1 != sid)

/-- `del active_connections[session_id]` in the WebSocketDisconnect
handler (main.py line 184): the key is removed unconditionally, regardless
of which socket the entry currently holds. -/
def websocket_disconnect (r : Registry) (sid : String) : Registry :=
  r.filter (fun p => p.1 != sid)

/-- `broadcast_update` (main.py lines 192-198): when a connection is
registered for the session the message is sent to it, otherwise nothing
happens.  The returned list is the deliveries performed. -/
def broadcast_update (r : Registry) (sid : String) (m : WsMessage) :
    List (Nat × WsMessage) :=
  match lookupConn r sid with
  | some ws => [(ws, m)]
  | none => []

/-- Removes adjacent repetitions, so a sequence of committed statuses can
be compared with the abstract lifecycle chain. -/
def dedupAdj : List ProcessingStatusEnum → List ProcessingStatusEnum
  | [] => []
  | [a] => [a]
  | a :: b :: rest =>
      if a = b then dedupAdj (b :: rest) else a :: dedupAdj (b :: rest)

/-! ## Concrete fixtures

Sample rows and requests used to exercise the handlers on concrete
inputs. -/

/-- A valid generation request (its URL passes `validate_source_url`). -/
def sampleRequest : ContentGenerationRequest :=
  { source_url := "https://x.com/a", source_type := "article",
    content_types := ["blog_post"] }

/-- A sample extraction result. -/
def sampleContentData : ContentData :=
  { text := some "T", summary := some "S", key_points := some ["p1"] }

/-- An orchestrator whose two capabilities succeed. -/
def okOrchestrator : Orchestrator :=
  { extract := fun _ _ => .ok sampleContentData,
    generate := fun _ _ _ _ _ => .ok [("blog_post", "B")] }

/-- An orchestrator whose extractor raises. -/
def extractFailOrchestrator : Orchestrator :=
  { extract := fun _ _ => .error "boom",
    generate := fun _ _ _ _ _ => .ok [("blog_post", "B")] }

/-- An orchestrator whose extractor succeeds and whose generator
raises. -/
def generateFailOrchestrator : Orchestrator :=
  { extract := fun _ _ => .ok sampleContentData,
    generate := fun _ _ _ _ _ => .error "llm down" }

/-- A content row as submission creates it. -/
def sampleContent : Content :=
  { id := 7, user_id := "user_demo", source_type := "article",
    source_url := "https://x.com/a",
    source_metadata :=
      { tone := some "professional", target_audience := none,
        include_hashtags := true } }

/-- A pending job for `sampleContent`. -/
def sampleJob : ProcessingJob :=
  { id := 1, content_id := 7, session_id := some "s1",
    output_content_types := ["blog_post"] }

/-- A store holding the sample content and its pending job. -/
def sampleStore : Store := ⟨[sampleContent], [sampleJob]⟩

/-- A sample WebSocket message. -/
def sampleMsg : WsMessage := ⟨"status", "processing"⟩

/-! ## Helper lemmas -/

/-- A job found by primary key carries that key. -/
theorem findJob_id {s : Store} {jid : Nat} {j : ProcessingJob}
    (h : findJob s jid = some j) : j.id = jid := by
  unfold findJob at h
  have hp := List.find?_some h
  exact beq_iff_eq.mp hp

/-- Replacing the row holding key `i` makes the replacement the row found
at key `i`, provided some row held `i` before. -/
theorem find?_map_replace (l : List ProcessingJob) (i : Nat)
    (j : ProcessingJob) (hj : j.id = i)
    (h : (l.find? (fun k => k.id == i)).isSome) :
    (l.map (fun k => if k.id == i then j else k)).find?
      (fun k => k.id == i) = some j := by
  induction l with
  | nil => simp at h
  | cons a t ih =>
    by_cases ha : a.id = i
    · simp [ha, hj]
    · simp only [List.map_cons]
      rw [if_neg (by simp [ha])]
      rw [List.find?_cons_of_neg _ (by simp [ha])]
      rw [List.find?_cons_of_neg _ (by simp [ha])] at h
      exact ih h

/-- `findJob` after `updateJob` at the same key returns the updated
row. -/
theorem findJob_updateJob {s : Store} {jid : Nat} {j j0 : ProcessingJob}
    (h : findJob s jid = some j0) (hj : j.id = jid) :
    findJob (updateJob s j) jid = some j := by
  subst hj
  unfold findJob updateJob at *
  exact find?_map_replace s.jobs j.id j rfl (by simp [h])

/-- `updateJob` never touches the contents table. -/
theorem updateJob_contents (s : Store) (j : ProcessingJob) :
    (updateJob s j).contents = s.contents := rfl

/-- `mapContent` never touches the jobs table. -/
theorem mapContent_jobs (s : Store) (cid : Nat) (f : Content → Content) :
    (mapContent s cid f).jobs = s.jobs := rfl

/-- A job found before a `generate_content` call is still found,
unchanged, afterwards: the handler either only appends fresh rows or (as
its commit in fact always fails on the NULL `raw_text`) leaves the store
untouched. -/
theorem findJob_generate_content {s : Store} {jid : Nat}
    {j0 : ProcessingJob} (req : ContentGenerationRequest)
    (cid jid2 : Nat) (sid : String)
    (h : findJob s jid = some j0) :
    findJob (generate_content s req cid jid2 sid).store jid = some j0 := h

/-- `mapContent` does not affect job lookup. -/
theorem findJob_mapContent (s : Store) (cid : Nat) (f : Content → Content)
    (jid : Nat) : findJob (mapContent s cid f) jid = findJob s jid := rfl

/-- `updateJob` at the looked-up key keeps the lookup populated. -/
theorem findJob_updateJob_isSome {s : Store} {jid : Nat}
    {j : ProcessingJob} (h : (findJob s jid).isSome) (hj : j.id = jid) :
    (findJob (updateJob s j) jid).isSome := by
  rcases ho : findJob s jid with _ | j0
  · rw [ho] at h; simp at h
  · rw [findJob_updateJob ho hj]; rfl

/-- A populated job lookup is preserved, with its value, by a later
`generate_content` call (which only appends fresh rows). -/
theorem findJob_generate_content_pres (req2 : ContentGenerationRequest)
    (cid2 jid2 : Nat) (sid2 : String) (s : Store) (jid : Nat)
    (h : (findJob s jid).isSome) :
    findJob (generate_content s req2 cid2 jid2 sid2).store jid =
      findJob s jid := by
  rcases ho : findJob s jid with _ | j0
  · rw [ho] at h; simp at h
  · rw [findJob_generate_content req2 cid2 jid2 sid2 ho]

/-! ## Claim theorems -/

/-- Claim C7: a run of `process_content_task` with a job_id for which no
ProcessingJob exists is a no-op — it returns without raising, leaves the
store untouched, commits nothing, pushes nothing and calls no external
service. -/
theorem process_content_task_missing_job_noop (s : Store) (jid : Nat)
    (sid : String) (req : ContentGenerationRequest) (orch : Orchestrator)
    (t0 t1 t2 : Nat) (h : findJob s jid = none) :
    process_content_task s jid sid req orch t0 t1 t2 =
      ⟨s, [], [], []⟩ := by
  unfold process_content_task
  rw [h]

/-- Claim C7, witness: the sample store holds no job with id 99, and the
run on job 99 is the stated no-op. -/
theorem process_content_task_missing_job_noop_witness :
    findJob sampleStore 99 = none ∧
    process_content_task sampleStore 99 "s1" sampleRequest okOrchestrator
      0 1 2 = ⟨sampleStore, [], [], []⟩ :=
  ⟨by decide,
   process_content_task_missing_job_noop sampleStore 99 "s1" sampleRequest
     okOrchestrator 0 1 2 (by decide)⟩

/-- Claim C5 (code_bug evidence): on every path — missing job, extractor
failure, generator failure, success — `process_content_task` performs no
`broadcast_update` call, so no message is ever pushed to the notification
channel at any checkpoint, although its own docstring says "Updates
progress via WebSocket". -/
theorem process_content_task_pushes_nothing (s : Store) (jid : Nat)
    (sid : String) (req : ContentGenerationRequest) (orch : Orchestrator)
    (t0 t1 t2 : Nat) :
    (process_content_task s jid sid req orch t0 t1 t2).msgs = [] := by
  unfold process_content_task
  split
  · rfl
  · split
    · rfl
    · split
      · rfl
      · rfl

/-- Claim C6: `broadcast_update` delivers the message exactly when a
connection is registered for the session; with no registered connection it
returns normally and delivers nothing (no buffering, no replay). -/
theorem broadcast_update_best_effort (r : Registry) (sid : String)
    (m : WsMessage) :
    (lookupConn r sid = none → broadcast_update r sid m = []) ∧
    (∀ ws, lookupConn r sid = some ws →
        broadcast_update r sid m = [(ws, m)]) ∧
    (broadcast_update r sid m ≠ [] ↔ lookupConn r sid ≠ none) := by
  unfold broadcast_update
  cases h : lookupConn r sid with
  | none => simp
  | some ws => simp

/-- Claim C6, witness: a registry holding session "s1" on socket 5
delivers to it, and a push for the unregistered session "s2" is silently
dropped. -/
theorem broadcast_update_best_effort_witness :
    lookupConn [("s1", 5)] "s1" = some 5 ∧
    broadcast_update [("s1", 5)] "s1" sampleMsg = [(5, sampleMsg)] ∧
    lookupConn [("s1", 5)] "s2" = none ∧
    broadcast_update [("s1", 5)] "s2" sampleMsg = [] :=
  ⟨rfl,
   (broadcast_update_best_effort [("s1", 5)] "s1" sampleMsg).2.1 5 rfl,
   rfl,
   (broadcast_update_best_effort [("s1", 5)] "s2" sampleMsg).1 rfl⟩

/-- Claim C9: when a second connection is registered for a session that
already has one (overwriting it) and the overwritten first connection then
disconnects, the cleanup deregisters the session entirely: the still-live
second connection has no registry entry, and later pushes to that session
are dropped. -/
theorem second_connection_lost_on_first_disconnect (r : Registry)
    (sid : String) (ws1 ws2 : Nat) (m : WsMessage) :
    lookupConn (websocket_register (websocket_register r sid ws1) sid ws2)
        sid = some ws2 ∧
    lookupConn (websocket_disconnect
        (websocket_register (websocket_register r sid ws1) sid ws2) sid)
        sid = none ∧
    broadcast_update (websocket_disconnect
        (websocket_register (websocket_register r sid ws1) sid ws2) sid)
        sid m = [] := by
  have hfil : ∀ l : Registry,
      (l.filter (fun p => p.1 != sid)).find? (fun p => p.1 == sid) =
        none := by
    intro l
    rw [List.find?_eq_none]
    intro x hx
    have hne := (List.mem_filter.mp hx).2
    simp only [bne_iff_ne, ne_eq] at hne
    simp [hne]
  refine ⟨?_, ?_, ?_⟩
  · simp [lookupConn, websocket_register]
  · simp [lookupConn, websocket_disconnect, hfil]
  · simp [broadcast_update, lookupConn, websocket_disconnect, hfil]

/-- Claim C1: starting from a job created PENDING by submission, the
committed status sequence of a pipeline run, with adjacent repetitions
collapsed, is exactly PENDING→PROCESSING→COMPLETED or
PENDING→PROCESSING→FAILED (so every observable sequence is a prefix of
the lifecycle chain); PENDING is never written again after the job leaves
it; a terminal status is only ever the last committed state, so no later
commit of the run changes the job; and a subsequent submission
(`generate_content`, the only other job-writing operation) leaves the
job's row untouched. -/
theorem job_status_lifecycle (s : Store) (jid : Nat) (sid : String)
    (req : ContentGenerationRequest) (orch : Orchestrator) (t0 t1 t2 : Nat)
    (job0 : ProcessingJob)
    (hfind : findJob s jid = some job0)
    (hpend : job0.status = .PENDING) :
    (dedupAdj (job0.status ::
        (process_content_task s jid sid req orch t0 t1 t2).commits.map
          (fun j => j.status)) =
      [.PENDING, .PROCESSING, .COMPLETED] ∨
     dedupAdj (job0.status ::
        (process_content_task s jid sid req orch t0 t1 t2).commits.map
          (fun j => j.status)) =
      [.PENDING, .PROCESSING, .FAILED]) ∧
    ProcessingStatusEnum.PENDING ∉
      (process_content_task s jid sid req orch t0 t1 t2).commits.map
        (fun j => j.status) ∧
    (∀ st ∈ ((process_content_task s jid sid req orch t0 t1 t2).commits.map
        (fun j => j.status)).dropLast, isTerminal st = false) ∧
    (∀ req2 cid2 jid2 sid2,
      findJob (generate_content
          (process_content_task s jid sid req orch t0 t1 t2).store
          req2 cid2 jid2 sid2).store jid =
        findJob (process_content_task s jid sid req orch t0 t1 t2).store
          jid) := by
  have hid : job0.id = jid := findJob_id hfind
  unfold process_content_task
  split
  · rename_i h
    rw [hfind] at h
    simp at h
  · rename_i job0' h
    rw [hfind] at h
    injection h with h
    subst h
    split
    · rename_i e hE
      refine ⟨?_, ?_, ?_, ?_⟩
      · rw [hpend]; dsimp only [List.map_cons, List.map_nil]; decide
      · dsimp only [List.map_cons, List.map_nil]; decide
      · dsimp only [List.map_cons, List.map_nil]; decide
      · intro req2 cid2 jid2 sid2
        apply findJob_generate_content_pres
        exact findJob_updateJob_isSome (findJob_updateJob_isSome
          (findJob_updateJob_isSome (by rw [hfind]; rfl) hid) hid) hid
    · rename_i content_data hE
      split
      · rename_i e hG
        refine ⟨?_, ?_, ?_, ?_⟩
        · rw [hpend]; dsimp only [List.map_cons, List.map_nil]; decide
        · dsimp only [List.map_cons, List.map_nil]; decide
        · dsimp only [List.map_cons, List.map_nil]; decide
        · intro req2 cid2 jid2 sid2
          apply findJob_generate_content_pres
          exact findJob_updateJob_isSome (findJob_updateJob_isSome
            (findJob_updateJob_isSome (findJob_updateJob_isSome
              (by rw [hfind]; rfl) hid) hid) hid) hid
      · rename_i generated hG
        refine ⟨?_, ?_, ?_, ?_⟩
        · rw [hpend]; dsimp only [List.map_cons, List.map_nil]; decide
        · dsimp only [List.map_cons, List.map_nil]; decide
        · dsimp only [List.map_cons, List.map_nil]; decide
        · intro req2 cid2 jid2 sid2
          apply findJob_generate_content_pres
          refine findJob_updateJob_isSome ?_ hid
          rw [findJob_mapContent]
          exact findJob_updateJob_isSome (findJob_updateJob_isSome
            (findJob_updateJob_isSome (by rw [hfind]; rfl) hid) hid) hid

/-- Claim C2: whenever the external extractor or generator call raises
during a run on an existing job, the last committed job state — which is
also what the store holds for that job after the run — has status FAILED,
a non-null error_message, error_code "PROCESSING_ERROR" and a set
completed_at; the contents table (in particular `generated_content`) is
exactly what it was before the run; and each external capability was
invoked at most once (no retry).  The run returns a plain `RunResult`:
the exception never escapes `process_content_task`. -/
theorem pipeline_failure_handling (s : Store) (jid : Nat) (sid : String)
    (req : ContentGenerationRequest) (orch : Orchestrator) (t0 t1 t2 : Nat)
    (job0 : ProcessingJob)
    (hfind : findJob s jid = some job0)
    (hfail : (∃ e, orch.extract req.source_url req.source_type =
        Except.error e) ∨
      (∃ cd e, orch.extract req.source_url req.source_type =
          Except.ok cd ∧
        orch.generate cd req.content_types req.tone req.target_audience
          req.include_hashtags = Except.error e)) :
    (∃ jf, (process_content_task s jid sid req orch t0 t1 t2).commits.getLast?
        = some jf ∧
      jf.status = .FAILED ∧ jf.error_message ≠ none ∧
      jf.error_code = some "PROCESSING_ERROR" ∧ jf.completed_at ≠ none) ∧
    findJob (process_content_task s jid sid req orch t0 t1 t2).store jid =
      (process_content_task s jid sid req orch t0 t1 t2).commits.getLast? ∧
    (process_content_task s jid sid req orch t0 t1 t2).store.contents =
      s.contents ∧
    ((process_content_task s jid sid req orch t0 t1 t2).calls =
        [.extractCall] ∨
      (process_content_task s jid sid req orch t0 t1 t2).calls =
        [.extractCall, .generateCall]) := by
  have hid : job0.id = jid := findJob_id hfind
  unfold process_content_task
  split
  · rename_i h
    rw [hfind] at h
    simp at h
  · rename_i job0' h
    rw [hfind] at h
    injection h with h
    subst h
    split
    · rename_i e hE
      refine ⟨⟨_, rfl, rfl, by simp, rfl, by simp⟩, ?_, rfl, Or.inl rfl⟩
      exact findJob_updateJob (findJob_updateJob (findJob_updateJob hfind
        hid) hid) hid
    · rename_i content_data hE
      split
      · rename_i e hG
        refine ⟨⟨_, rfl, rfl, by simp, rfl, by simp⟩, ?_, rfl, Or.inr rfl⟩
        exact findJob_updateJob (findJob_updateJob (findJob_updateJob
          (findJob_updateJob hfind hid) hid) hid) hid
      · rename_i generated hG
        exfalso
        rcases hfail with ⟨e, hEe⟩ | ⟨cd, e, hEok, hGe⟩
        · rw [hE] at hEe
          cases hEe
        · rw [hE] at hEok
          injection hEok with hcd
          subst hcd
          rw [hG] at hGe
          cases hGe

/-- Claim C3: starting from a job created at progress 0, the sequence of
progress_percent values over the job's lifetime (the creation value
followed by the committed values of a pipeline run) is non-decreasing,
and the final committed progress — which is also what the store holds
after the run — is 100 exactly when the final committed status is
COMPLETED. -/
theorem job_progress_lifecycle (s : Store) (jid : Nat) (sid : String)
    (req : ContentGenerationRequest) (orch : Orchestrator) (t0 t1 t2 : Nat)
    (job0 : ProcessingJob)
    (hfind : findJob s jid = some job0)
    (hprog : job0.progress_percent = 0) :
    List.Chain' (fun a b => a ≤ b)
      (job0.progress_percent ::
        (process_content_task s jid sid req orch t0 t1 t2).commits.map
          (fun j => j.progress_percent)) ∧
    ((process_content_task s jid sid req orch t0 t1 t2).commits.getLast?.map
        (fun j => j.progress_percent) = some 100 ↔
      (process_content_task s jid sid req orch t0 t1 t2).commits.getLast?.map
        (fun j => j.status) = some .COMPLETED) ∧
    findJob (process_content_task s jid sid req orch t0 t1 t2).store jid =
      (process_content_task s jid sid req orch t0 t1 t2).commits.getLast? := by
  have hid : job0.id = jid := findJob_id hfind
  unfold process_content_task
  split
  · rename_i h
    rw [hfind] at h
    simp at h
  · rename_i job0' h
    rw [hfind] at h
    injection h with h
    subst h
    split
    · rename_i e hE
      refine ⟨?_, ?_, ?_⟩
      · rw [hprog]; dsimp only [List.map_cons, List.map_nil]
        simp only [List.chain'_cons, List.chain'_singleton, and_true]
        omega
      · simp
      · exact findJob_updateJob (findJob_updateJob (findJob_updateJob hfind
          hid) hid) hid
    · rename_i content_data hE
      split
      · rename_i e hG
        refine ⟨?_, ?_, ?_⟩
        · rw [hprog]; dsimp only [List.map_cons, List.map_nil]
          simp only [List.chain'_cons, List.chain'_singleton, and_true]
          omega
        · simp
        · exact findJob_updateJob (findJob_updateJob (findJob_updateJob
            (findJob_updateJob hfind hid) hid) hid) hid
      · rename_i generated hG
        refine ⟨?_, ?_, ?_⟩
        · rw [hprog]; dsimp only [List.map_cons, List.map_nil]
          simp only [List.chain'_cons, List.chain'_singleton, and_true]
          omega
        · simp
        · exact findJob_updateJob ((findJob_mapContent _ _ _ _).trans
            (findJob_updateJob (findJob_updateJob (findJob_updateJob
              hfind hid) hid) hid)) hid

/-- Claim C1, witness: the sample pending job run to successful
completion. -/
theorem job_status_lifecycle_witness :
    findJob sampleStore 1 = some sampleJob ∧
    sampleJob.status = .PENDING ∧
    ((dedupAdj (sampleJob.status ::
        (process_content_task sampleStore 1 "s1" sampleRequest
          okOrchestrator 0 1 2).commits.map (fun j => j.status)) =
      [.PENDING, .PROCESSING, .COMPLETED] ∨
     dedupAdj (sampleJob.status ::
        (process_content_task sampleStore 1 "s1" sampleRequest
          okOrchestrator 0 1 2).commits.map (fun j => j.status)) =
      [.PENDING, .PROCESSING, .FAILED]) ∧
    ProcessingStatusEnum.PENDING ∉
      (process_content_task sampleStore 1 "s1" sampleRequest
        okOrchestrator 0 1 2).commits.map (fun j => j.status) ∧
    (∀ st ∈ ((process_content_task sampleStore 1 "s1" sampleRequest
        okOrchestrator 0 1 2).commits.map (fun j => j.status)).dropLast,
      isTerminal st = false) ∧
    (∀ req2 cid2 jid2 sid2,
      findJob (generate_content (process_content_task sampleStore 1 "s1"
          sampleRequest okOrchestrator 0 1 2).store req2 cid2 jid2
          sid2).store 1 =
        findJob (process_content_task sampleStore 1 "s1" sampleRequest
          okOrchestrator 0 1 2).store 1)) :=
  ⟨rfl, rfl,
   job_status_lifecycle sampleStore 1 "s1" sampleRequest okOrchestrator
     0 1 2 sampleJob rfl rfl⟩

/-- Claim C2, witness: the sample pending job run against an orchestrator
whose extractor raises. -/
theorem pipeline_failure_handling_witness :
    findJob sampleStore 1 = some sampleJob ∧
    ((∃ e, extractFailOrchestrator.extract sampleRequest.source_url
        sampleRequest.source_type = Except.error e) ∨
     (∃ cd e, extractFailOrchestrator.extract sampleRequest.source_url
          sampleRequest.source_type = Except.ok cd ∧
        extractFailOrchestrator.generate cd sampleRequest.content_types
          sampleRequest.tone sampleRequest.target_audience
          sampleRequest.include_hashtags = Except.error e)) ∧
    ((∃ jf, (process_content_task sampleStore 1 "s1" sampleRequest
        extractFailOrchestrator 0 1 2).commits.getLast? = some jf ∧
      jf.status = .FAILED ∧ jf.error_message ≠ none ∧
      jf.error_code = some "PROCESSING_ERROR" ∧ jf.completed_at ≠ none) ∧
    findJob (process_content_task sampleStore 1 "s1" sampleRequest
        extractFailOrchestrator 0 1 2).store 1 =
      (process_content_task sampleStore 1 "s1" sampleRequest
        extractFailOrchestrator 0 1 2).commits.getLast? ∧
    (process_content_task sampleStore 1 "s1" sampleRequest
        extractFailOrchestrator 0 1 2).store.contents =
      sampleStore.contents ∧
    ((process_content_task sampleStore 1 "s1" sampleRequest
        extractFailOrchestrator 0 1 2).calls = [.extractCall] ∨
      (process_content_task sampleStore 1 "s1" sampleRequest
        extractFailOrchestrator 0 1 2).calls =
        [.extractCall, .generateCall])) :=
  ⟨rfl, Or.inl ⟨"boom", rfl⟩,
   pipeline_failure_handling sampleStore 1 "s1" sampleRequest
     extractFailOrchestrator 0 1 2 sampleJob rfl
     (Or.inl ⟨"boom", rfl⟩)⟩

/-- Claim C3, witness: the sample pending job (progress 0) run to
successful completion. -/
theorem job_progress_lifecycle_witness :
    findJob sampleStore 1 = some sampleJob ∧
    sampleJob.progress_percent = 0 ∧
    (List.Chain' (fun a b => a ≤ b)
      (sampleJob.progress_percent ::
        (process_content_task sampleStore 1 "s1" sampleRequest
          okOrchestrator 0 1 2).commits.map
          (fun j => j.progress_percent)) ∧
    ((process_content_task sampleStore 1 "s1" sampleRequest
        okOrchestrator 0 1 2).commits.getLast?.map
        (fun j => j.progress_percent) = some 100 ↔
      (process_content_task sampleStore 1 "s1" sampleRequest
        okOrchestrator 0 1 2).commits.getLast?.map
        (fun j => j.status) = some .COMPLETED) ∧
    findJob (process_content_task sampleStore 1 "s1" sampleRequest
        okOrchestrator 0 1 2).store 1 =
      (process_content_task sampleStore 1 "s1" sampleRequest
        okOrchestrator 0 1 2).commits.getLast?) :=
  ⟨rfl, rfl,
   job_progress_lifecycle sampleStore 1 "s1" sampleRequest okOrchestrator
     0 1 2 sampleJob rfl rfl⟩

/-- Claim C4 (code_bug evidence): for every valid generation request the
handler builds a Content row without ever assigning `raw_text`, although
models.py line 72 declares that column NOT NULL with no default, so the
commit raises IntegrityError; the `except Exception` branch answers a
generic 500, no Content and no ProcessingJob row persists, and no
background execution is queued — submission never produces the accepted
outcome the claim describes. -/
theorem generate_content_insert_violates_not_null (s : Store)
    (req : ContentGenerationRequest) (cid jid : Nat) (sid : String)
    (hvalid : validate_source_url req.source_url = true) :
    (generate_content s req cid jid sid).store = s ∧
    (generate_content s req cid jid sid).scheduled = [] ∧
    (∃ e, (generate_content s req cid jid sid).outcome =
      .internalError e) ∧
    ∀ resp, (generate_content s req cid jid sid).outcome ≠
      .accepted resp := by
  refine ⟨rfl, rfl, ⟨_, rfl⟩, ?_⟩
  intro resp h
  exact SubmitOutcome.noConfusion h

/-- Claim C4, witness: the sample valid request submitted to the empty
store: a 500 outcome, no rows persisted, nothing scheduled. -/
theorem generate_content_insert_violates_not_null_witness :
    validate_source_url sampleRequest.source_url = true ∧
    ((generate_content ⟨[], []⟩ sampleRequest 7 1 "s1").store =
      (⟨[], []⟩ : Store) ∧
    (generate_content ⟨[], []⟩ sampleRequest 7 1 "s1").scheduled = [] ∧
    (∃ e, (generate_content ⟨[], []⟩ sampleRequest 7 1 "s1").outcome =
      .internalError e) ∧
    ∀ resp, (generate_content ⟨[], []⟩ sampleRequest 7 1 "s1").outcome ≠
      .accepted resp) :=
  ⟨by decide,
   generate_content_insert_violates_not_null ⟨[], []⟩ sampleRequest 7 1
     "s1" (by decide)⟩

/-- Claim C8: deleting an existing Content answers 204, removes that
Content row and every ProcessingJob row referencing it, and keeps every
other row; deleting an unknown content_id answers 404 and removes
nothing. -/
theorem delete_content_cascade (s : Store) (cid : Nat) :
    ((findContent s cid).isSome →
      (delete_content s cid).http_status = 204 ∧
      (∀ c ∈ (delete_content s cid).store.contents, c.id ≠ cid) ∧
      (∀ j ∈ (delete_content s cid).store.jobs, j.content_id ≠ cid) ∧
      (∀ c ∈ s.contents, c.id ≠ cid →
        c ∈ (delete_content s cid).store.contents) ∧
      (∀ j ∈ s.jobs, j.content_id ≠ cid →
        j ∈ (delete_content s cid).store.jobs)) ∧
    (findContent s cid = none →
      (delete_content s cid).store = s ∧
      (delete_content s cid).http_status = 404) := by
  unfold delete_content
  cases h : findContent s cid with
  | none => simp
  | some c =>
    refine ⟨fun _ => ⟨rfl, ?_, ?_, ?_, ?_⟩, by simp⟩
    · intro c2 hc2
      have := (List.mem_filter.mp hc2).2
      simpa using this
    · intro j hj
      have := (List.mem_filter.mp hj).2
      simpa using this
    · intro c2 hc2 hne
      exact List.mem_filter.mpr ⟨hc2, by simpa using hne⟩
    · intro j hj hne
      exact List.mem_filter.mpr ⟨hj, by simpa using hne⟩

/-- Claim C8, witness: deleting content 7 from the sample store (which
cascades to its job) and deleting the unknown content 99. -/
theorem delete_content_cascade_witness :
    (findContent sampleStore 7).isSome ∧
    ((delete_content sampleStore 7).http_status = 204 ∧
      (∀ c ∈ (delete_content sampleStore 7).store.contents, c.id ≠ 7) ∧
      (∀ j ∈ (delete_content sampleStore 7).store.jobs,
        j.content_id ≠ 7) ∧
      (∀ c ∈ sampleStore.contents, c.id ≠ 7 →
        c ∈ (delete_content sampleStore 7).store.contents) ∧
      (∀ j ∈ sampleStore.jobs, j.content_id ≠ 7 →
        j ∈ (delete_content sampleStore 7).store.jobs)) ∧
    findContent sampleStore 99 = none ∧
    ((delete_content sampleStore 99).store = sampleStore ∧
      (delete_content sampleStore 99).http_status = 404) :=
  ⟨rfl, (delete_content_cascade sampleStore 7).1 rfl, rfl,
   (delete_content_cascade sampleStore 99).2 rfl⟩

/-- Claim C10: an export request on an existing Content whose format is
neither "json" nor "markdown" yields the caught-ValueError internal-error
outcome (the generic 500), not a validation rejection; the stored state
is returned unchanged; and the schema accepts any string in the format
field. -/
theorem export_unknown_format_internal_error (s : Store) (cid : Nat)
    (req : ContentExportRequest) (c : Content)
    (hc : findContent s cid = some c)
    (hj : req.format ≠ "json") (hm : req.format ≠ "markdown") :
    (export_content s cid req).1 =
      .internalError ("Unsupported format: " ++ req.format) ∧
    (export_content s cid req).2 = s ∧
    export_format_schema_accepts req.format = true := by
  unfold export_content
  rw [hc]
  simp [hj, hm, export_format_schema_accepts]

/-- Claim C10, witness: exporting the sample content as "csv". -/
theorem export_unknown_format_internal_error_witness :
    findContent sampleStore 7 = some sampleContent ∧
    "csv" ≠ "json" ∧ "csv" ≠ "markdown" ∧
    ((export_content sampleStore 7 ⟨7, "csv", true⟩).1 =
      .internalError ("Unsupported format: " ++ "csv") ∧
    (export_content sampleStore 7 ⟨7, "csv", true⟩).2 = sampleStore ∧
    export_format_schema_accepts "csv" = true) :=
  ⟨rfl, by decide, by decide,
   export_unknown_format_internal_error sampleStore 7 ⟨7, "csv", true⟩
     sampleContent rfl (by decide) (by decide)⟩

end ContentFlow
